import Mathlib

/-!
Shallow embedding of the moderation decision core of the Bothelpers bot
(`src/bot/spam_detector.py`, `src/bot/content_filter.py`,
`src/bot/storage.py`, `src/bot/captcha.py`, `src/config.py`) together
with theorems settling the spec claims about it.

Conventions of the embedding:
* Python `dict`s held in the JSON record store become Lean structures whose
  fields are `Option`-valued exactly where the code distinguishes a missing
  key (read through `.get(key, default)`) from a stored value.
* The stores themselves are maps `key → Option record`; `dict.get(key, d)`
  becomes `(store key).getD d`.
* `time.time()` / `datetime` values are rationals (exact arithmetic over the
  values the code compares with `>`).
* `difflib.SequenceMatcher(None, a, b).ratio()` is an external library call;
  the detector is parameterised by the `ratio` function, and theorems assume
  only its documented behaviour on the inputs they use (equal strings have
  ratio 1.0).
-/

namespace Bothelpers

/-! ## Python string primitives used by `_clean_message` and the captcha check -/

/-- Python's `\s` / `str.strip()` whitespace class (ASCII): space, tab,
newline, carriage return, vertical tab, form feed. -/
def pyIsSpace (c : Char) : Bool :=
  c = ' ' || c = '\t' || c = '\n' || c = '\x0d' || c = '\x0b' || c = '\x0c'

/-- Python `str.lower()` (the sources only ever hold ASCII). -/
def pyLower (s : String) : String :=
  String.mk (s.data.map Char.toLower)

/-- Python `str.strip()`: drop leading and trailing whitespace. -/
def pyStrip (s : String) : String :=
  String.mk (((s.data.dropWhile pyIsSpace).reverse.dropWhile pyIsSpace).reverse)

/-- `re.sub(r'\s+', ' ', s)`: collapse every maximal run of whitespace to a
single space. -/
def collapseWsAux : List Char → List Char
  | [] => []
  | c :: rest =>
    if pyIsSpace c then ' ' :: collapseWsAux (rest.dropWhile pyIsSpace)
    else c :: collapseWsAux rest
termination_by l => l.length
decreasing_by
  · exact Nat.lt_succ_of_le (List.dropWhile_suffix pyIsSpace).length_le
  · exact Nat.lt_succ_self _

def collapseWs (s : String) : String :=
  String.mk (collapseWsAux s.data)

/-- The punctuation class removed by `_clean_message`:
`[!@#$%^&*(),.?":{}|<>]`. -/
def cleanPunct (c : Char) : Bool :=
  c = '!' || c = '@' || c = '#' || c = '$' || c = '%' || c = '^' || c = '&' ||
  c = '*' || c = '(' || c = ')' || c = ',' || c = '.' || c = '?' || c = '"' ||
  c = ':' || c = '\x7b' || c = '\x7d' || c = '|' || c = '<' || c = '>'

/-- `SpamDetector._clean_message`: collapse whitespace on the stripped,
lowercased text, then delete the punctuation class. -/
def clean_message (message : String) : String :=
  let cleaned := collapseWs (pyLower (pyStrip message))
  String.mk (cleaned.data.filter (fun c => !cleanPunct c))

/-- Python's `needle in haystack` on lists of characters. -/
def listInfix (needle haystack : List Char) : Bool :=
  needle.isPrefixOf haystack ||
    match haystack with
    | [] => false
    | _ :: rest => listInfix needle rest

/-- Python's substring test `needle in haystack`. -/
def pyIn (needle haystack : String) : Bool :=
  listInfix needle.data haystack.data

/-! ## Configuration constants (`src/config.py`, environment defaults) -/

def FLOOD_LIMIT : Nat := 5
def SPAM_THRESHOLD : Nat := 3
def MESSAGE_SIMILARITY_THRESHOLD : ℚ := 8/10
def MAX_WARNINGS : Nat := 3
def ENABLE_BANNED_WORDS : Bool := true
def ENABLE_MEDIA_FILTERING : Bool := true

/-! ## Record store (`src/bot/storage.py`) -/

/-- The per-(user,group) moderation record stored under key
`f"{group_id}_{user_id}"` in `spam_data.json`.  `get_spam_data` always
supplies all four fields as a default, so none of them is optional. -/
structure SpamData where
  messageCount : Nat
  lastMessageTime : ℚ
  recentMessages : List String
  warnings : Nat
deriving DecidableEq, Repr

/-- Default record returned by `StorageManager.get_spam_data` for an absent
key. -/
def defaultSpamData : SpamData :=
  ⟨0, 0, [], 0⟩

/-- The spam-data store, keyed by (group_id, user_id) — the embedding of the
string key `f"{group_id}_{user_id}"`, which is injective on integer pairs. -/
def SpamStore : Type := ℤ × ℤ → Option SpamData

/-- `StorageManager.get_spam_data`. -/
def get_spam_data (store : SpamStore) (userId groupId : ℤ) : SpamData :=
  (store (groupId, userId)).getD defaultSpamData

/-- `StorageManager.save_spam_data`. -/
def save_spam_data (store : SpamStore) (userId groupId : ℤ) (d : SpamData) :
    SpamStore :=
  fun k => if k = (groupId, userId) then some d else store k

/-- The `settings` sub-dict of a group record, with one `Option` per key the
code ever reads (`.get(key, default)` everywhere); an absent `settings` dict
is the all-`none` value. -/
structure GroupSettings where
  antiSpamEnabled : Option Bool
  welcomeEnabled : Option Bool
  floodProtection : Option Bool
  captchaEnabled : Option Bool
deriving DecidableEq, Repr

/-- The `media_policy` sub-dict of a group record (read only through
`.get(key, default)`); an absent dict is the all-`none` value. -/
structure MediaPolicy where
  blockAllMedia : Option Bool
  blockImages : Option Bool
  blockVideos : Option Bool
  blockAudio : Option Bool
  blockDocuments : Option Bool
  blockStickers : Option Bool
  blockGifs : Option Bool
  maxFileSize : Option Nat
deriving DecidableEq, Repr

def emptyMediaPolicy : MediaPolicy :=
  ⟨none, none, none, none, none, none, none, none⟩

/-- A group record from `groups.json`.  `bannedWords` is `Option`-valued
because the code distinguishes a record without the `banned_words` key
(`group_data.get("banned_words", fallback)`) from one holding a list. -/
structure GroupData where
  welcomeMessage : Option String
  settings : GroupSettings
  admins : List ℤ
  bannedWords : Option (List String)
  mediaPolicy : MediaPolicy
deriving DecidableEq, Repr

/-- The `default_group` literal built inside `StorageManager.get_group_data`:
`welcome_message: None`, the three settings keys all `True` (no
`captcha_enabled` key), empty `admins`, and — crucially — a present, empty
`banned_words` list.  No `media_policy` key. -/
def default_group : GroupData :=
  { welcomeMessage := none
    settings :=
      { antiSpamEnabled := some true
        welcomeEnabled := some true
        floodProtection := some true
        captchaEnabled := none }
    admins := []
    bannedWords := some []
    mediaPolicy := emptyMediaPolicy }

def GroupStore : Type := ℤ → Option GroupData

/-- `StorageManager.get_group_data`: the stored record, or `default_group`. -/
def get_group_data (groups : GroupStore) (groupId : ℤ) : GroupData :=
  (groups groupId).getD default_group

/-! Readers: every access the code makes to a group record's settings goes
through `.get(key, default)` with these defaults
(`handlers.py`, `web_interface.py`). -/

def readAntiSpamEnabled (g : GroupData) : Bool :=
  g.settings.antiSpamEnabled.getD true

def readWelcomeEnabled (g : GroupData) : Bool :=
  g.settings.welcomeEnabled.getD true

def readFloodProtection (g : GroupData) : Bool :=
  g.settings.floodProtection.getD true

def readCaptchaEnabled (g : GroupData) : Bool :=
  g.settings.captchaEnabled.getD false

/-- The banned-words read in `SpamDetector.contains_banned_words`:
`group_data.get("banned_words", [])`. -/
def readBannedWordsEmpty (g : GroupData) : List String :=
  g.bannedWords.getD []

/-! ## Spam detector (`src/bot/spam_detector.py`) -/

/-- The state transformation and verdict of `SpamDetector.is_flood` on one
record: reset the counter to 1 when more than 60 seconds passed since the
stored `last_message_time` (which is then set to `now` in either branch),
otherwise increment; flag when the new counter exceeds the flood limit. -/
def floodStep (floodLimit : Nat) (now : ℚ) (d : SpamData) : Bool × SpamData :=
  let count := if now - d.lastMessageTime > 60 then 1 else d.messageCount + 1
  (decide (count > floodLimit),
   { d with messageCount := count, lastMessageTime := now })

/-- `SpamDetector.is_flood`: read-modify-write of the (user,group) record. -/
def is_flood (floodLimit : Nat) (store : SpamStore) (userId groupId : ℤ)
    (now : ℚ) : Bool × SpamStore :=
  let r := floodStep floodLimit now (get_spam_data store userId groupId)
  (r.1, save_spam_data store userId groupId r.2)

/-- Keep only the last `n` elements of a list — Python's `l[-n:]`. -/
def lastN (n : Nat) (l : List α) : List α :=
  l.drop (l.length - n)

/-- The state transformation and verdict of `SpamDetector.is_spam_message` on
one record, parameterised by the `SequenceMatcher(...).ratio()` library
function: count the stored recent messages whose similarity to the cleaned
current text reaches the threshold, append the cleaned text keeping the last
10, and flag when the count reaches the spam threshold. -/
def spamStep (ratio : String → String → ℚ) (spamThreshold : Nat)
    (simThreshold : ℚ) (messageText : String) (d : SpamData) :
    Bool × SpamData :=
  let cleaned := clean_message messageText
  let similarCount :=
    d.recentMessages.countP (fun old => decide (ratio cleaned old ≥ simThreshold))
  let recent := lastN 10 (d.recentMessages ++ [cleaned])
  (decide (similarCount ≥ spamThreshold), { d with recentMessages := recent })

/-- `SpamDetector.is_spam_message`. -/
def is_spam_message (ratio : String → String → ℚ) (spamThreshold : Nat)
    (simThreshold : ℚ) (store : SpamStore) (userId groupId : ℤ)
    (messageText : String) : Bool × SpamStore :=
  let r := spamStep ratio spamThreshold simThreshold messageText
    (get_spam_data store userId groupId)
  (r.1, save_spam_data store userId groupId r.2)

/-- `SpamDetector.contains_banned_words`: the group's `banned_words` read
with default `[]`, matched case-insensitively as substrings. -/
def contains_banned_words (groups : GroupStore) (groupId : ℤ)
    (messageText : String) : Bool :=
  let bannedWords := readBannedWordsEmpty (get_group_data groups groupId)
  let messageLower := pyLower messageText
  bannedWords.any (fun w => pyIn (pyLower w) messageLower)

/-- Character class of the URL regex
`http[s]?://(?:[a-zA-Z]|[0-9]|[$-_@.&+]|[!*\\(\\),]|(?:%hex))+` in
`has_suspicious_links` (the `$-_` item is the range U+0024–U+005F). -/
def urlBodyChar (c : Char) : Bool :=
  c.isAlpha || c.isDigit || ('$' ≤ c && c ≤ '_') ||
  c = '!' || c = '*' || c = '\\' || c = '(' || c = ')' || c = ',' || c = '%'

/-- `re.findall` of the URL pattern: scan left to right, at each position a
match must start with `http://` or `https://` followed by one or more body
characters, taken greedily; continue after the match. -/
def findUrlsAux : Nat → List Char → List (List Char)
  | 0, _ => []
  | _, [] => []
  | fuel + 1, c :: rest =>
    if ['h', 't', 't', 'p', 's', ':', '/', '/'].isPrefixOf (c :: rest) &&
        !(((c :: rest).drop 8).takeWhile urlBodyChar).isEmpty then
      ((c :: rest).take 8 ++ ((c :: rest).drop 8).takeWhile urlBodyChar) ::
        findUrlsAux fuel (((c :: rest).drop 8).dropWhile urlBodyChar)
    else if ['h', 't', 't', 'p', ':', '/', '/'].isPrefixOf (c :: rest) &&
        !(((c :: rest).drop 7).takeWhile urlBodyChar).isEmpty then
      ((c :: rest).take 7 ++ ((c :: rest).drop 7).takeWhile urlBodyChar) ::
        findUrlsAux fuel (((c :: rest).drop 7).dropWhile urlBodyChar)
    else findUrlsAux fuel rest

/-- All URL-pattern matches in the character list.  The fuel argument is a
structural-recursion device only: every recursive call of `findUrlsAux`
strictly shortens the list, so `l.length` fuel is never exhausted. -/
def findUrls (l : List Char) : List (List Char) :=
  findUrlsAux l.length l

/-- The suspicious-domain list hard-coded in
`SpamDetector.has_suspicious_links`. -/
def detectorSuspiciousDomains : List String :=
  ["bit.ly", "tinyurl.com", "shorturl.at", "ow.ly", "t.co", "goo.gl",
   "buff.ly"]

/-- `SpamDetector.has_suspicious_links`: any extracted URL containing one of
the hard-coded shortener domains as a substring. -/
def has_suspicious_links (messageText : String) : Bool :=
  let urls := (findUrls messageText.data).map String.mk
  urls.any (fun url =>
    detectorSuspiciousDomains.any (fun domain => pyIn domain url))

/-! ## Warning ladder (`spam_detector.py`, lines 156–177) -/

/-- `SpamDetector.increment_warnings`: bump the stored warning count and
return the new count together with the updated store. -/
def increment_warnings (store : SpamStore) (userId groupId : ℤ) :
    Nat × SpamStore :=
  let d := get_spam_data store userId groupId
  let w := d.warnings + 1
  (w, save_spam_data store userId groupId { d with warnings := w })

/-- `SpamDetector.get_warning_action`. -/
def get_warning_action (maxWarnings : Nat) (warningCount : Nat) : String :=
  if warningCount ≥ maxWarnings then "ban"
  else if warningCount ≥ 2 then "mute"
  else "warn"

/-- `SpamDetector.reset_warnings`. -/
def reset_warnings (store : SpamStore) (userId groupId : ℤ) : SpamStore :=
  let d := get_spam_data store userId groupId
  save_spam_data store userId groupId { d with warnings := 0 }

/-! ## Combined verdict (`SpamDetector.check_message`) -/

/-- The dict returned by `ContentFilter.comprehensive_content_check` as
consumed by `check_message` (`violation`, `reasons`, `action`; the final
action there is always a string, defaulting to `"warn"`). -/
structure ContentVerdict where
  violation : Bool
  reasons : List String
  action : String
deriving DecidableEq, Repr

/-- The result dict of `check_message`: `is_spam`, `reasons`,
`action_recommended` (initialised to `None`). -/
structure CheckResult where
  isSpam : Bool
  reasons : List String
  actionRecommended : Option String
deriving DecidableEq, Repr

/-- `SpamDetector.check_message`, message by message.  The four checks run in
code order and each one that fires overwrites `action_recommended`
(`mute`, `warn`, `delete`, `warn` in that order); `contentResult` is the
output of `comprehensive_content_check` when a message object is passed
(`none` embeds the default `message=None` call), merged exactly as in lines
143–152 of the source. -/
def check_message (ratio : String → String → ℚ) (floodLimit spamThreshold : Nat)
    (simThreshold : ℚ) (groups : GroupStore) (store : SpamStore)
    (userId groupId : ℤ) (messageText : String) (now : ℚ)
    (contentResult : Option ContentVerdict) : CheckResult × SpamStore :=
  let f := is_flood floodLimit store userId groupId now
  let s := is_spam_message ratio spamThreshold simThreshold f.2 userId groupId
    messageText
  let banned := contains_banned_words groups groupId messageText
  let links := has_suspicious_links messageText
  let r0 : CheckResult := ⟨false, [], none⟩
  let r1 := if f.1 then
      (⟨true, r0.reasons ++ ["flooding"], some "mute"⟩ : CheckResult) else r0
  let r2 := if s.1 then
      (⟨true, r1.reasons ++ ["repeated_content"], some "warn"⟩ : CheckResult)
    else r1
  let r3 := if banned then
      (⟨true, r2.reasons ++ ["banned_words"], some "delete"⟩ : CheckResult)
    else r2
  let r4 := if links then
      (⟨true, r3.reasons ++ ["suspicious_links"], some "warn"⟩ : CheckResult)
    else r3
  let r5 := match contentResult with
    | none => r4
    | some cr =>
      if cr.violation then
        let action :=
          if cr.action = "delete" ∨ r4.actionRecommended = some "mute" then
            some cr.action
          else if r4.actionRecommended = none then some cr.action
          else r4.actionRecommended
        (⟨true, r4.reasons ++ cr.reasons, action⟩ : CheckResult)
      else r4
  (r5, s.2)

/-! ## Content filter (`src/bot/content_filter.py`) -/

/-- `ContentFilter.default_banned_words`. -/
def default_banned_words : List String :=
  ["spam", "scam", "fake", "fraud", "cheat", "hack",
   "buy now", "limited time", "act fast", "exclusive offer",
   "free money", "easy money", "guaranteed profit",
   "porn", "xxx", "adult", "nsfw", "nude",
   "bet", "casino", "poker", "gambling", "lottery"]

/-- Result dict of the individual `ContentFilter` checks: `violation` and
`reasons` always present, `action` only set in the violation case. -/
structure CfResult where
  violation : Bool
  reasons : List String
  action : Option String
deriving DecidableEq, Repr

/-- `ContentFilter.check_banned_words`: the group's `banned_words` read with
the built-in default list as the `.get` fallback (used only when the record
lacks the key), matched case-insensitively as substrings; any match is a
violation with action `delete`. -/
def check_banned_words (enabled : Bool) (groups : GroupStore) (groupId : ℤ)
    (text : String) : CfResult :=
  if !enabled then ⟨false, [], none⟩
  else
    let bannedWords :=
      (get_group_data groups groupId).bannedWords.getD default_banned_words
    let textLower := pyLower text
    let found := bannedWords.filter (fun w => pyIn (pyLower w) textLower)
    if found.isEmpty then ⟨false, [], none⟩
    else
      ⟨true, ["Contains banned word(s): " ++ String.intercalate ", " found],
       some "delete"⟩

/-- A `telegram.Document` as read by the media check: `file_size` and
`file_name` through `getattr(..., default)`. -/
structure PyDocument where
  fileSize : Nat
  fileName : String
deriving DecidableEq, Repr

/-- The attachment shape of a `telegram.Message` as tested (truthily) by
`check_media_content`. -/
structure PyMessage where
  photo : Bool
  video : Bool
  audio : Bool
  animation : Bool
  sticker : Bool
  document : Option PyDocument
deriving DecidableEq, Repr

/-- `media_policy.get("max_file_size", 20 * 1024 * 1024)`. -/
def readMaxFileSize (mp : MediaPolicy) : Nat :=
  mp.maxFileSize.getD (20 * 1024 * 1024)

/-- Tenths of a megabyte of a byte count, rounded half to even — the value
printed by `f"{file_size / 1024 / 1024:.1f}"`. -/
def mbTenths (bytes : Nat) : Nat :=
  let n := bytes * 10
  let d := 1048576
  if 2 * (n % d) > d then n / d + 1
  else if 2 * (n % d) < d then n / d
  else if (n / d) % 2 = 0 then n / d else n / d + 1

/-- Models `f"{file_size / 1024 / 1024:.1f}"`. -/
def fmtMB (bytes : Nat) : String :=
  toString (mbTenths bytes / 10) ++ "." ++ toString (mbTenths bytes % 10)

/-- Models `f"{max_size / 1024 / 1024}"` (exact for whole-megabyte limits,
such as the 20MB default). -/
def fmtMaxMB (bytes : Nat) : String :=
  toString (bytes / 1048576) ++ "." ++ toString (bytes * 10 / 1048576 % 10)

/-- `dangerous_extensions` of `check_media_content`. -/
def dangerous_extensions : List String :=
  [".exe", ".bat", ".cmd", ".scr", ".pif", ".com", ".jar", ".sh"]

/-- `ContentFilter.check_media_content`: block-all / per-type flags, then the
file-size limit, then the dangerous-extension check, in source order; any
violation gives action `delete`. -/
def check_media_content (enabled : Bool) (groups : GroupStore) (groupId : ℤ)
    (msg : PyMessage) : CfResult :=
  if !enabled then ⟨false, [], none⟩
  else
    let mp := (get_group_data groups groupId).mediaPolicy
    let typeViolations : List String :=
      if mp.blockAllMedia.getD false then
        if msg.photo || msg.video || msg.audio || msg.document.isSome ||
            msg.animation || msg.sticker then
          ["Media content not allowed in this group"]
        else []
      else
        (if msg.photo && mp.blockImages.getD false then
          ["Images not allowed"] else []) ++
        (if msg.video && mp.blockVideos.getD false then
          ["Videos not allowed"] else []) ++
        (if msg.audio && mp.blockAudio.getD false then
          ["Audio files not allowed"] else []) ++
        (if msg.document.isSome && mp.blockDocuments.getD false then
          ["Documents not allowed"] else []) ++
        (if msg.sticker && mp.blockStickers.getD false then
          ["Stickers not allowed"] else []) ++
        (if msg.animation && mp.blockGifs.getD false then
          ["GIFs/animations not allowed"] else [])
    let sizeViolations : List String :=
      match msg.document with
      | some doc =>
        if doc.fileSize > readMaxFileSize mp then
          ["File too large: " ++ fmtMB doc.fileSize ++ "MB (max: " ++
            fmtMaxMB (readMaxFileSize mp) ++ "MB)"]
        else []
      | none => []
    let extViolations : List String :=
      match msg.document with
      | some doc =>
        let fileName := pyLower doc.fileName
        if dangerous_extensions.any
            (fun e => e.data.isSuffixOf fileName.data) then
          ["Potentially harmful file type: " ++ fileName]
        else []
      | none => []
    let violations := typeViolations ++ sizeViolations ++ extViolations
    if violations.isEmpty then ⟨false, [], none⟩
    else ⟨true, violations, some "delete"⟩

/-! ## Captcha verification (`src/bot/captcha.py`) -/

/-- A `pending_users` entry of `CaptchaManager`. -/
structure CaptchaData where
  chatId : ℤ
  question : String
  answer : String
  expires : ℚ
deriving DecidableEq, Repr

/-- `CaptchaManager.pending_users`, keyed by user id alone. -/
def PendingMap : Type := ℤ → Option CaptchaData

/-- `CaptchaManager.verify_captcha` as a function of the pending map, the
submitted answer and the current time; returns the `(bool, message)` pair and
the updated map.  The platform call that lifts the restriction on success is
modelled as succeeding (its `except` branch is transport-error handling). -/
def verify_captcha (pending : PendingMap) (userId : ℤ) (answer : String)
    (now : ℚ) : (Bool × String) × PendingMap :=
  match pending userId with
  | none => ((false, "No pending captcha found."), pending)
  | some cd =>
    if now > cd.expires then
      ((false, "Captcha expired."),
       fun k => if k = userId then none else pending k)
    else
      let correctAnswer := pyStrip (pyLower cd.answer)
      let userAnswer := pyStrip (pyLower answer)
      if userAnswer = correctAnswer then
        ((true, "✅ Captcha solved! Welcome to the group!"),
         fun k => if k = userId then none else pending k)
      else
        ((false,
          "❌ Incorrect answer. Try again.\nCorrect answer was: " ++
            correctAnswer),
         pending)

/-! ## Spec-side comparison definition for the flood window -/

/-- Follows the spec's words (§4.1 / claim C3), for comparison with
`floodStep`: "if `now - window_start > 60s`, reset
`message_count = 1, window_start = now`; else increment" — the stored window
start is updated only on reset, not on every message. -/
def specWindowFloodStep (floodLimit : Nat) (now : ℚ) (d : SpamData) :
    Bool × SpamData :=
  if now - d.lastMessageTime > 60 then
    (decide (1 > floodLimit), { d with messageCount := 1, lastMessageTime := now })
  else
    (decide (d.messageCount + 1 > floodLimit),
     { d with messageCount := d.messageCount + 1 })

/-! ## Run helpers: feeding a timed/textual message sequence to a detector -/

/-- Run `floodStep` over a list of message times, collecting the verdicts. -/
def floodRun (floodLimit : Nat) (d : SpamData) : List ℚ → List Bool × SpamData
  | [] => ([], d)
  | t :: ts =>
    let r := floodStep floodLimit t d
    let rest := floodRun floodLimit r.2 ts
    (r.1 :: rest.1, rest.2)

/-- Run `specWindowFloodStep` over a list of message times. -/
def specWindowFloodRun (floodLimit : Nat) (d : SpamData) :
    List ℚ → List Bool × SpamData
  | [] => ([], d)
  | t :: ts =>
    let r := specWindowFloodStep floodLimit t d
    let rest := specWindowFloodRun floodLimit r.2 ts
    (r.1 :: rest.1, rest.2)

/-- Run `spamStep` over a list of message texts, collecting the verdicts. -/
def spamRun (ratio : String → String → ℚ) (spamThreshold : Nat)
    (simThreshold : ℚ) (d : SpamData) : List String → List Bool × SpamData
  | [] => ([], d)
  | t :: ts =>
    let r := spamStep ratio spamThreshold simThreshold t d
    let rest := spamRun ratio spamThreshold simThreshold r.2 ts
    (r.1 :: rest.1, rest.2)

/-- A similarity function agreeing with `SequenceMatcher.ratio()` on the only
comparisons the concrete runs below perform (equal strings): ratio 1 on equal
inputs. -/
def eqRatio (a b : String) : ℚ :=
  if a = b then 1 else 0

/-! ## Concrete inputs used by witnesses and counterexamples -/

/-- A group store holding one group (id 7) whose record has the banned word
`badword` configured. -/
def c1GroupStore : GroupStore := fun g =>
  if g = 7 then some { default_group with bannedWords := some ["badword"] }
  else none

/-- A spam store in which user 42 in group 7 has already sent 5 messages in
the current minute (last one at t = 100). -/
def c1SpamStore : SpamStore := fun k =>
  if k = (7, 42) then some ⟨5, 100, [], 0⟩ else none

/-- A group store holding one group (id 7) whose stored record lacks the
`banned_words` key (as records created by `log_action` do). -/
def c5NoKeyStore : GroupStore := fun g =>
  if g = 7 then some { default_group with bannedWords := none } else none

/-- A pending captcha for user 5: math question, answer `"7"`, expiring at
t = 1000. -/
def c7Pending : PendingMap := fun u =>
  if u = 5 then some ⟨9, "What is 3 + 4?", "7", 1000⟩ else none

/-- A pending captcha for user 11: trivia question, answer `"paris"`,
expiring at t = 500. -/
def c9Pending : PendingMap := fun u =>
  if u = 11 then some ⟨9, "What is the capital of France?", "paris", 500⟩
  else none

/-- A 25MB PDF document attachment (and nothing else) on a message. -/
def c8Message : PyMessage :=
  ⟨false, false, false, false, false, some ⟨25 * 1024 * 1024, "report.pdf"⟩⟩

/-- A spam store holding one populated moderation record, for user 4 in
group 3. -/
def c10Store : SpamStore := fun k =>
  if k = (3, 4) then some ⟨2, 50, ["hi"], 7⟩ else none

/-!
## Claim theorems
-/

/-- Claim C1, counterexample: a message evaluation in which both the flood
check and the banned-words check fire recommends `delete`, not `mute` — user
42 in group 7 sends its 6th message `"badword"` at t = 130 (30s after the
5th), the group has `badword` configured, and `check_message` returns
`action_recommended = "delete"`: the banned-words check runs after the flood
check and overwrites the action, so the claimed flood-`mute` precedence is
false of the code. -/
theorem c1_merge_counterexample :
    (check_message eqRatio FLOOD_LIMIT SPAM_THRESHOLD
        MESSAGE_SIMILARITY_THRESHOLD c1GroupStore c1SpamStore 42 7 "badword"
        130 none).1 =
      ⟨true, ["flooding", "banned_words"], some "delete"⟩ := by
  have hb : contains_banned_words c1GroupStore 7 "badword" = true := by decide
  have hl : has_suspicious_links "badword" = false := by decide
  norm_num [check_message, is_flood, is_spam_message, floodStep, spamStep,
    get_spam_data, save_spam_data, c1SpamStore, hb, hl, defaultSpamData,
    lastN, FLOOD_LIMIT, SPAM_THRESHOLD, MESSAGE_SIMILARITY_THRESHOLD]

/-- Claim C1 (amended): in `check_message`, each check that fires overwrites
`action_recommended` in code order (flood → `mute`, repeated content →
`warn`, banned words → `delete`, suspicious links → `warn`); consequently,
when both the flood and the banned-words checks fire and no later check
does (no suspicious link, no message object), the combined verdict
recommends `delete` — the last firing check wins, not a severity order. -/
theorem c1_merge_amended (ratio : String → String → ℚ)
    (floodLimit spamThreshold : Nat) (simThreshold : ℚ) (groups : GroupStore)
    (store : SpamStore) (userId groupId : ℤ) (text : String) (now : ℚ)
    (hflood :
      (floodStep floodLimit now (get_spam_data store userId groupId)).1 = true)
    (hban : contains_banned_words groups groupId text = true)
    (hlinks : has_suspicious_links text = false) :
    ((check_message ratio floodLimit spamThreshold simThreshold groups store
        userId groupId text now none).1).isSpam = true ∧
    ((check_message ratio floodLimit spamThreshold simThreshold groups store
        userId groupId text now none).1).actionRecommended = some "delete" ∧
    "flooding" ∈ ((check_message ratio floodLimit spamThreshold simThreshold
        groups store userId groupId text now none).1).reasons ∧
    "banned_words" ∈ ((check_message ratio floodLimit spamThreshold
        simThreshold groups store userId groupId text now none).1).reasons := by
  cases hsm : (is_spam_message ratio spamThreshold simThreshold
      (save_spam_data store userId groupId
        (floodStep floodLimit now (get_spam_data store userId groupId)).2)
      userId groupId text).1 <;>
    simp [check_message, is_flood, hflood, hban, hlinks, hsm]

/-- Witness for C1 (amended) at the concrete flooding banned-word message. -/
theorem c1_merge_amended_witness :
    (floodStep FLOOD_LIMIT 130 (get_spam_data c1SpamStore 42 7)).1 = true ∧
    contains_banned_words c1GroupStore 7 "badword" = true ∧
    has_suspicious_links "badword" = false ∧
    ((check_message eqRatio FLOOD_LIMIT SPAM_THRESHOLD
        MESSAGE_SIMILARITY_THRESHOLD c1GroupStore c1SpamStore 42 7 "badword"
        130 none).1).actionRecommended = some "delete" := by
  have h1 : (floodStep FLOOD_LIMIT 130 (get_spam_data c1SpamStore 42 7)).1 =
      true := by
    norm_num [floodStep, get_spam_data, c1SpamStore, FLOOD_LIMIT]
  have h2 : contains_banned_words c1GroupStore 7 "badword" = true := by decide
  have h3 : has_suspicious_links "badword" = false := by decide
  exact ⟨h1, h2, h3,
    (c1_merge_amended eqRatio FLOOD_LIMIT SPAM_THRESHOLD
      MESSAGE_SIMILARITY_THRESHOLD c1GroupStore c1SpamStore 42 7 "badword"
      130 h1 h2 h3).2.1⟩

/-- Claim C2, counterexample: sending the same text `"hello"` 3 times from a
fresh record (defaults: spam_threshold 3, similarity threshold 0.8, identical
strings having ratio 1) does NOT report a repeated-content violation on the
3rd occurrence — all three calls return `false`, because only the 2 prior
stored copies are counted against the threshold 3. -/
theorem c2_repeat_counterexample :
    (spamRun eqRatio SPAM_THRESHOLD MESSAGE_SIMILARITY_THRESHOLD
        defaultSpamData ["hello", "hello", "hello"]).1 =
      [false, false, false] := by
  norm_num [spamRun, spamStep, defaultSpamData, lastN, eqRatio,
    SPAM_THRESHOLD, MESSAGE_SIMILARITY_THRESHOLD,
    List.countP_cons, List.countP_nil]

/-- Claim C2 (amended): the repeated-content check counts how many of the
up-to-10 stored prior messages have similarity ratio ≥ the threshold against
the current normalized text, reports a violation when that count ≥
spam_threshold (default 3), and then appends the current text; hence sending
the same normalized text repeatedly from a fresh record triggers the
violation on the 4th occurrence (when 3 prior copies are stored), not the
3rd — for any similarity function giving equal strings ratio 1. -/
theorem c2_repeat_amended (ratio : String → String → ℚ)
    (hr : ∀ s, ratio s s = 1) (t : String) :
    (spamRun ratio SPAM_THRESHOLD MESSAGE_SIMILARITY_THRESHOLD
        defaultSpamData [t, t, t, t]).1 = [false, false, false, true] := by
  norm_num [spamRun, spamStep, defaultSpamData, lastN, hr,
    SPAM_THRESHOLD, MESSAGE_SIMILARITY_THRESHOLD,
    List.countP_cons, List.countP_nil]

/-- Witness for C2 (amended) at `eqRatio` and the text `"hello"`. -/
theorem c2_repeat_amended_witness :
    (∀ s, eqRatio s s = 1) ∧
    (spamRun eqRatio SPAM_THRESHOLD MESSAGE_SIMILARITY_THRESHOLD
        defaultSpamData ["hello", "hello", "hello", "hello"]).1 =
      [false, false, false, true] :=
  ⟨fun s => by simp [eqRatio],
   c2_repeat_amended eqRatio (fun s => by simp [eqRatio]) "hello"⟩

/-- Claim C3, counterexample: the flood check does not reset when more than
60 seconds have elapsed since the window start; it resets on the gap since
the previous message.  Messages at t = 100, 150, 200 from a fresh record
leave the stored counter at 3, although at t = 200 more than 60s have
elapsed since the window start t = 100 (the claimed rule demands a reset to
1, as the spec-faithful `specWindowFloodRun` shows); over the six messages
at t = 100..350 (gaps of 50s) the code flags the 6th while the claimed
mechanism would flag none. -/
theorem c3_flood_counterexample :
    ((floodRun FLOOD_LIMIT defaultSpamData [100, 150, 200]).2).messageCount
        = 3 ∧
    ((specWindowFloodRun FLOOD_LIMIT defaultSpamData
        [100, 150, 200]).2).messageCount = 1 ∧
    (200 : ℚ) - 100 > 60 ∧
    (floodRun FLOOD_LIMIT defaultSpamData
        [100, 150, 200, 250, 300, 350]).1 =
      [false, false, false, false, false, true] ∧
    (specWindowFloodRun FLOOD_LIMIT defaultSpamData
        [100, 150, 200, 250, 300, 350]).1 =
      [false, false, false, false, false, false] := by
  norm_num [floodRun, floodStep, specWindowFloodRun, specWindowFloodStep,
    defaultSpamData, FLOOD_LIMIT]

/-- Claim C3 (amended): the flood check resets the message counter to 1 when
more than 60 seconds have elapsed since the previous message (the stored
timestamp is updated on every message, so the window slides) and otherwise
increments it, and reports a flood violation exactly when the counter
exceeds flood_limit (default 5); in particular, for any chronological
sequence of 6 messages all within one 60-second window, the 6th message is
flagged and the first 5 are not. -/
theorem c3_flood_amended (t0 t1 t2 t3 t4 t5 : ℚ) (h01 : t0 ≤ t1)
    (h12 : t1 ≤ t2) (h23 : t2 ≤ t3) (h34 : t3 ≤ t4) (h45 : t4 ≤ t5)
    (hwin : t5 ≤ t0 + 60) :
    (floodRun FLOOD_LIMIT defaultSpamData [t0, t1, t2, t3, t4, t5]).1 =
      [false, false, false, false, false, true] := by
  have g1 : ¬(t1 - t0 > 60) := by linarith
  have g2 : ¬(t2 - t1 > 60) := by linarith
  have g3 : ¬(t3 - t2 > 60) := by linarith
  have g4 : ¬(t4 - t3 > 60) := by linarith
  have g5 : ¬(t5 - t4 > 60) := by linarith
  by_cases h0 : t0 - 0 > 60 <;>
    norm_num [floodRun, floodStep, defaultSpamData, FLOOD_LIMIT, h0, g1, g2,
      g3, g4, g5]

/-- Witness for C3 (amended) at the times 0, 10, 20, 30, 40, 50. -/
theorem c3_flood_amended_witness :
    ((0 : ℚ) ≤ 10 ∧ (10 : ℚ) ≤ 20 ∧ (20 : ℚ) ≤ 30 ∧ (30 : ℚ) ≤ 40 ∧
      (40 : ℚ) ≤ 50 ∧ (50 : ℚ) ≤ 0 + 60) ∧
    (floodRun FLOOD_LIMIT defaultSpamData [0, 10, 20, 30, 40, 50]).1 =
      [false, false, false, false, false, true] :=
  ⟨by norm_num,
   c3_flood_amended 0 10 20 30 40 50 (by norm_num) (by norm_num)
     (by norm_num) (by norm_num) (by norm_num) (by norm_num)⟩

/-- Claim C4: retrieving the group configuration for a group_id with no
stored record yields the documented defaults through every reader the code
uses — anti_spam_enabled true, welcome_enabled true, flood_protection true,
captcha_enabled false (read with `.get("captcha_enabled", False)`), and an
empty banned-words list under both reads (`get("banned_words", [])` and the
content filter's `get("banned_words", default_list)`) — and a stored config
holding exactly those defaults is observationally indistinguishable from the
absent-record result under all of those readers. -/
theorem c4_default_group_config (gid gid' : ℤ) :
    (readAntiSpamEnabled (get_group_data (fun _ => none) gid) = true ∧
     readWelcomeEnabled (get_group_data (fun _ => none) gid) = true ∧
     readFloodProtection (get_group_data (fun _ => none) gid) = true ∧
     readCaptchaEnabled (get_group_data (fun _ => none) gid) = false ∧
     readBannedWordsEmpty (get_group_data (fun _ => none) gid) = [] ∧
     (get_group_data (fun _ => none) gid).bannedWords.getD
       default_banned_words = []) ∧
    (readAntiSpamEnabled (get_group_data
        (fun g => if g = gid' then some
          ⟨none, ⟨some true, some true, some true, some false⟩, [], some [],
            emptyMediaPolicy⟩ else none) gid')
       = readAntiSpamEnabled (get_group_data (fun _ => none) gid) ∧
     readWelcomeEnabled (get_group_data
        (fun g => if g = gid' then some
          ⟨none, ⟨some true, some true, some true, some false⟩, [], some [],
            emptyMediaPolicy⟩ else none) gid')
       = readWelcomeEnabled (get_group_data (fun _ => none) gid) ∧
     readFloodProtection (get_group_data
        (fun g => if g = gid' then some
          ⟨none, ⟨some true, some true, some true, some false⟩, [], some [],
            emptyMediaPolicy⟩ else none) gid')
       = readFloodProtection (get_group_data (fun _ => none) gid) ∧
     readCaptchaEnabled (get_group_data
        (fun g => if g = gid' then some
          ⟨none, ⟨some true, some true, some true, some false⟩, [], some [],
            emptyMediaPolicy⟩ else none) gid')
       = readCaptchaEnabled (get_group_data (fun _ => none) gid) ∧
     readBannedWordsEmpty (get_group_data
        (fun g => if g = gid' then some
          ⟨none, ⟨some true, some true, some true, some false⟩, [], some [],
            emptyMediaPolicy⟩ else none) gid')
       = readBannedWordsEmpty (get_group_data (fun _ => none) gid) ∧
     (get_group_data
        (fun g => if g = gid' then some
          ⟨none, ⟨some true, some true, some true, some false⟩, [], some [],
            emptyMediaPolicy⟩ else none) gid').bannedWords.getD
         default_banned_words
       = (get_group_data (fun _ => none) gid).bannedWords.getD
           default_banned_words) := by
  simp [get_group_data, readAntiSpamEnabled, readWelcomeEnabled,
    readFloodProtection, readCaptchaEnabled, readBannedWordsEmpty,
    default_group]

/-- Claim C5, counterexample: for a group with no stored record (hence no
banned words configured) and the feature flag on, the banned-words check
does NOT fall back to the built-in default list — the default group record
carries a present, empty `banned_words` list, so the message `"spam"`
produces no violation even though `spam` is on the default list and matches
the text. -/
theorem c5_fallback_counterexample :
    (check_banned_words ENABLE_BANNED_WORDS (fun _ => none) 1 "spam").violation
        = false ∧
    "spam" ∈ default_banned_words ∧
    pyIn (pyLower "spam") (pyLower "spam") = true := by decide

/-- Claim C5 (amended): the built-in default banned-word list is consulted
only when the stored group record lacks the `banned_words` key entirely (a
group with no stored record, or a stored empty list, matches against the
empty list and never fires); for a stored record without the key and the
feature flag on, the check matches the message text case-insensitively
against the default list, and any match yields a violation with action
`delete`. -/
theorem c5_fallback_amended (groups : GroupStore) (gid : ℤ) (g : GroupData)
    (text : String) (hg : groups gid = some g)
    (hbw : g.bannedWords = none) :
    ((check_banned_words ENABLE_BANNED_WORDS groups gid text).violation = true
      ↔ ∃ w ∈ default_banned_words, pyIn (pyLower w) (pyLower text) = true) ∧
    ((check_banned_words ENABLE_BANNED_WORDS groups gid text).violation = true
      → (check_banned_words ENABLE_BANNED_WORDS groups gid text).action =
          some "delete") := by
  have hkey : (default_banned_words.filter
      (fun w => pyIn (pyLower w) (pyLower text))).isEmpty = true ↔
      ¬ ∃ w ∈ default_banned_words, pyIn (pyLower w) (pyLower text) = true := by
    simp [List.isEmpty_iff, List.filter_eq_nil_iff]
  cases hfound : (default_banned_words.filter
      (fun w => pyIn (pyLower w) (pyLower text))).isEmpty
  · have hex := not_not.mp ((not_iff_not.mpr hkey).mp (by simp [hfound]))
    simp [check_banned_words, ENABLE_BANNED_WORDS, get_group_data, hg, hbw,
      hfound, hex]
  · have hnex := hkey.mp hfound
    simp [check_banned_words, ENABLE_BANNED_WORDS, get_group_data, hg, hbw,
      hfound, hnex]

/-- Witness for C5 (amended): a stored group record lacking the
`banned_words` key, with the text `"free SPAM here"`, fires on the default
list. -/
theorem c5_fallback_amended_witness :
    c5NoKeyStore 7 = some { default_group with bannedWords := none } ∧
    ({ default_group with bannedWords := none } : GroupData).bannedWords
        = none ∧
    (((check_banned_words ENABLE_BANNED_WORDS c5NoKeyStore 7
        "free SPAM here").violation = true
      ↔ ∃ w ∈ default_banned_words,
          pyIn (pyLower w) (pyLower "free SPAM here") = true) ∧
     ((check_banned_words ENABLE_BANNED_WORDS c5NoKeyStore 7
        "free SPAM here").violation = true
      → (check_banned_words ENABLE_BANNED_WORDS c5NoKeyStore 7
          "free SPAM here").action = some "delete")) ∧
    (check_banned_words ENABLE_BANNED_WORDS c5NoKeyStore 7
        "free SPAM here").violation = true :=
  ⟨by decide, rfl,
   c5_fallback_amended c5NoKeyStore 7
     { default_group with bannedWords := none } "free SPAM here"
     (by decide) rfl,
   by decide⟩

/-- Claim C6: starting from a fresh (user, group) key, `increment_warnings`
returns 1, 2, 3 on successive calls, and `get_warning_action` (with the
default max_warnings 3) maps those counts to `warn`, `mute`, `ban`
respectively; after `reset_warnings`, the next increment yields 1 and
`warn` again. -/
theorem c6_warning_ladder (store : SpamStore) (u g : ℤ)
    (h : store (g, u) = none) :
    (increment_warnings store u g).1 = 1 ∧
    get_warning_action MAX_WARNINGS (increment_warnings store u g).1
      = "warn" ∧
    (increment_warnings (increment_warnings store u g).2 u g).1 = 2 ∧
    get_warning_action MAX_WARNINGS
      (increment_warnings (increment_warnings store u g).2 u g).1 = "mute" ∧
    (increment_warnings
      (increment_warnings (increment_warnings store u g).2 u g).2 u g).1
      = 3 ∧
    get_warning_action MAX_WARNINGS (increment_warnings
      (increment_warnings (increment_warnings store u g).2 u g).2 u g).1
      = "ban" ∧
    (increment_warnings (reset_warnings (increment_warnings
      (increment_warnings (increment_warnings store u g).2 u g).2 u g).2
        u g) u g).1 = 1 ∧
    get_warning_action MAX_WARNINGS (increment_warnings (reset_warnings
      (increment_warnings (increment_warnings
        (increment_warnings store u g).2 u g).2 u g).2 u g) u g).1
      = "warn" := by
  norm_num [increment_warnings, reset_warnings, get_spam_data, save_spam_data,
    h, defaultSpamData, get_warning_action, MAX_WARNINGS]

/-- Witness for C6 on the empty store for user 1 in group 2. -/
theorem c6_warning_ladder_witness :
    ((fun _ => none : SpamStore) (2, 1) = none) ∧
    ((increment_warnings (fun _ => none) 1 2).1 = 1 ∧
     get_warning_action MAX_WARNINGS
       (increment_warnings (fun _ => none) 1 2).1 = "warn" ∧
     (increment_warnings (increment_warnings (fun _ => none) 1 2).2 1 2).1
       = 2 ∧
     get_warning_action MAX_WARNINGS
       (increment_warnings (increment_warnings (fun _ => none) 1 2).2 1 2).1
       = "mute" ∧
     (increment_warnings (increment_warnings
       (increment_warnings (fun _ => none) 1 2).2 1 2).2 1 2).1 = 3 ∧
     get_warning_action MAX_WARNINGS (increment_warnings (increment_warnings
       (increment_warnings (fun _ => none) 1 2).2 1 2).2 1 2).1 = "ban" ∧
     (increment_warnings (reset_warnings (increment_warnings
       (increment_warnings (increment_warnings (fun _ => none) 1 2).2 1 2).2
         1 2).2 1 2) 1 2).1 = 1 ∧
     get_warning_action MAX_WARNINGS (increment_warnings (reset_warnings
       (increment_warnings (increment_warnings
         (increment_warnings (fun _ => none) 1 2).2 1 2).2 1 2).2 1 2)
           1 2).1 = "warn") :=
  ⟨rfl, c6_warning_ladder (fun _ => none) 1 2 rfl⟩

/-- Claim C7: for a pending captcha, a submitted answer solves it iff, after
case-folding and trimming both sides, it equals the stored expected answer
and the submission occurs at or before expires_at; a wrong answer before
expiry leaves the record pending (the map is unchanged, the user may
retry); any submission after expires_at is treated as expired regardless of
the answer. -/
theorem c7_captcha_verify (pending : PendingMap) (uid : ℤ) (cd : CaptchaData)
    (ans : String) (now : ℚ) (h : pending uid = some cd) :
    ((verify_captcha pending uid ans now).1.1 = true ↔
      (pyStrip (pyLower ans) = pyStrip (pyLower cd.answer) ∧
        now ≤ cd.expires)) ∧
    (now ≤ cd.expires → pyStrip (pyLower ans) ≠ pyStrip (pyLower cd.answer) →
      (verify_captcha pending uid ans now).2 = pending) ∧
    (now > cd.expires →
      (verify_captcha pending uid ans now).1 = (false, "Captcha expired.")) := by
  by_cases hexp : now > cd.expires
  · simp [verify_captcha, h, hexp, not_le.mpr hexp]
  · have hle : now ≤ cd.expires := not_lt.mp hexp
    by_cases hans : pyStrip (pyLower ans) = pyStrip (pyLower cd.answer) <;>
      simp [verify_captcha, h, hexp, hans, hle]

/-- Witness for C7: the pending answer `"7"` expiring at t = 1000, probed
with the padded submission `" 7 "` at t = 900. -/
theorem c7_captcha_verify_witness :
    c7Pending 5 = some ⟨9, "What is 3 + 4?", "7", 1000⟩ ∧
    (((verify_captcha c7Pending 5 " 7 " 900).1.1 = true ↔
      (pyStrip (pyLower " 7 ") =
        pyStrip (pyLower (⟨9, "What is 3 + 4?", "7", 1000⟩ :
          CaptchaData).answer) ∧
        (900 : ℚ) ≤ (⟨9, "What is 3 + 4?", "7", 1000⟩ :
          CaptchaData).expires)) ∧
     ((900 : ℚ) ≤ (⟨9, "What is 3 + 4?", "7", 1000⟩ : CaptchaData).expires →
      pyStrip (pyLower " 7 ") ≠
        pyStrip (pyLower (⟨9, "What is 3 + 4?", "7", 1000⟩ :
          CaptchaData).answer) →
      (verify_captcha c7Pending 5 " 7 " 900).2 = c7Pending) ∧
     ((900 : ℚ) > (⟨9, "What is 3 + 4?", "7", 1000⟩ : CaptchaData).expires →
      (verify_captcha c7Pending 5 " 7 " 900).1 =
        (false, "Captcha expired."))) :=
  ⟨rfl, c7_captcha_verify c7Pending 5 ⟨9, "What is 3 + 4?", "7", 1000⟩
    " 7 " 900 rfl⟩

/-- Claim C8: with media filtering enabled, a message carrying a document
whose file size exceeds the configured max_file_size (default 20MB when the
group's media policy does not set one) produces a media violation with
recommended action `delete` and a reason starting with `File too large`. -/
theorem c8_media_size (groups : GroupStore) (gid : ℤ) (msg : PyMessage)
    (doc : PyDocument) (hdoc : msg.document = some doc)
    (hsize :
      doc.fileSize > readMaxFileSize (get_group_data groups gid).mediaPolicy) :
    (check_media_content ENABLE_MEDIA_FILTERING groups gid msg).violation
        = true ∧
    (check_media_content ENABLE_MEDIA_FILTERING groups gid msg).action
        = some "delete" ∧
    ∃ s, ("File too large: " ++ s) ∈
      (check_media_content ENABLE_MEDIA_FILTERING groups gid msg).reasons := by
  refine ⟨?_, ?_, ⟨fmtMB doc.fileSize ++ ("MB (max: " ++
    (fmtMaxMB (readMaxFileSize (get_group_data groups gid).mediaPolicy) ++
      "MB)")), ?_⟩⟩ <;>
    simp [check_media_content, ENABLE_MEDIA_FILTERING, hdoc, hsize,
      ← String.append_assoc]

/-- Witness for C8: a 25MB document in a group with no stored record
(default media policy, max 20MB); the single reason is exactly
`File too large: 25.0MB (max: 20.0MB)`. -/
theorem c8_media_size_witness :
    c8Message.document = some ⟨25 * 1024 * 1024, "report.pdf"⟩ ∧
    (25 * 1024 * 1024 >
      readMaxFileSize (get_group_data (fun _ => none) 7).mediaPolicy) ∧
    ((check_media_content ENABLE_MEDIA_FILTERING (fun _ => none) 7
        c8Message).violation = true ∧
     (check_media_content ENABLE_MEDIA_FILTERING (fun _ => none) 7
        c8Message).action = some "delete" ∧
     ∃ s, ("File too large: " ++ s) ∈
       (check_media_content ENABLE_MEDIA_FILTERING (fun _ => none) 7
         c8Message).reasons) ∧
    (check_media_content ENABLE_MEDIA_FILTERING (fun _ => none) 7
        c8Message).reasons = ["File too large: 25.0MB (max: 20.0MB)"] :=
  ⟨rfl, by decide,
   c8_media_size (fun _ => none) 7 c8Message ⟨25 * 1024 * 1024, "report.pdf"⟩
     rfl (by decide),
   by decide⟩

/-- Claim C9: for a pending captcha and a wrong answer submitted before
expiry, the failure message returned by `verify_captcha` contains the stored
correct answer in clear text — it is exactly the fixed prefix followed by
the (case-folded, trimmed) stored answer, which for every answer the
generator produces (digit strings and lowercase words) is the stored answer
itself. -/
theorem c9_answer_reveal (pending : PendingMap) (uid : ℤ) (cd : CaptchaData)
    (ans : String) (now : ℚ) (h : pending uid = some cd)
    (hle : now ≤ cd.expires)
    (hwrong : pyStrip (pyLower ans) ≠ pyStrip (pyLower cd.answer))
    (hnorm : pyStrip (pyLower cd.answer) = cd.answer) :
    (verify_captcha pending uid ans now).1.2 =
      "❌ Incorrect answer. Try again.\nCorrect answer was: " ++ cd.answer := by
  rw [show ("❌ Incorrect answer. Try again.\nCorrect answer was: " ++
    cd.answer) = ("❌ Incorrect answer. Try again.\nCorrect answer was: " ++
      pyStrip (pyLower cd.answer)) from by rw [hnorm]]
  simp [verify_captcha, h, not_lt.mpr hle, hwrong]

/-- Witness for C9: the wrong answer `"london"` against the stored answer
`"paris"` before expiry; the failure message ends with the stored answer. -/
theorem c9_answer_reveal_witness :
    c9Pending 11 =
      some ⟨9, "What is the capital of France?", "paris", 500⟩ ∧
    ((400 : ℚ) ≤ (⟨9, "What is the capital of France?", "paris", 500⟩ :
      CaptchaData).expires) ∧
    pyStrip (pyLower "london") ≠
      pyStrip (pyLower (⟨9, "What is the capital of France?", "paris", 500⟩ :
        CaptchaData).answer) ∧
    pyStrip (pyLower (⟨9, "What is the capital of France?", "paris", 500⟩ :
      CaptchaData).answer) =
      (⟨9, "What is the capital of France?", "paris", 500⟩ :
        CaptchaData).answer ∧
    (verify_captcha c9Pending 11 "london" 400).1.2 =
      "❌ Incorrect answer. Try again.\nCorrect answer was: " ++ "paris" :=
  ⟨rfl, by norm_num, by decide, by decide,
   c9_answer_reveal c9Pending 11
     ⟨9, "What is the capital of France?", "paris", 500⟩ "london" 400 rfl
     (by norm_num) (by decide) (by decide)⟩

/-- Claim C10: `reset_warnings` on a stored (user, group) record sets only
that record's `warnings` field to 0 — its other fields (message_count,
last_message_time, recent_messages) are preserved — and every record under
any other key is unchanged. -/
theorem c10_reset_frame (store : SpamStore) (u g : ℤ) (rec : SpamData)
    (h : store (g, u) = some rec) :
    reset_warnings store u g (g, u) = some { rec with warnings := 0 } ∧
    ∀ k, k ≠ (g, u) → reset_warnings store u g k = store k := by
  constructor
  · simp [reset_warnings, get_spam_data, save_spam_data, h]
  · intro k hk
    simp [reset_warnings, save_spam_data, hk]

/-- Witness for C10 on a store holding a populated record for user 4 in
group 3, probing every other key for the frame condition. -/
theorem c10_reset_frame_witness :
    c10Store (3, 4) = some ⟨2, 50, ["hi"], 7⟩ ∧
    reset_warnings c10Store 4 3 (3, 4) = some ⟨2, 50, ["hi"], 0⟩ ∧
    (∀ k, k ≠ ((3 : ℤ), (4 : ℤ)) → reset_warnings c10Store 4 3 k =
      c10Store k) :=
  ⟨rfl, (c10_reset_frame c10Store 4 3 ⟨2, 50, ["hi"], 7⟩ rfl).1,
   (c10_reset_frame c10Store 4 3 ⟨2, 50, ["hi"], 7⟩ rfl).2⟩

end Bothelpers
